import Mathlib

/-!
Verification of the satellite-monitor backend (multi-source satellite
tracker).  The Python sources under `backend/` are shallowly embedded:

* machine floats are modelled as exact rationals (`ℚ`);
* transcendental library functions (`math.sin`, `math.cos`, `math.asin`,
  `math.atan2`, `math.sqrt`, the cube root `** (1/3)` and the constant
  `math.pi`) are gathered in a `MathKernel` parameter: every embedded
  function takes the kernel as an argument and theorems either hold for
  every kernel or state explicitly which true-function facts they use;
* Python exceptions are modelled by `Option`/explicit guards at exactly
  the program points where the Python runtime can raise
  (`float(...)`/`int(...)` parsing, division by zero, `math.sqrt` of a
  negative number, out-of-range `datetime` arithmetic); a `try/except`
  block becomes a `match` on that `Option`;
* `datetime` values are rationals counting seconds since 0001-01-01,
  `time.time()` timestamps share the same scale.

Each claim-level theorem carries a doc comment naming the claim.
-/

/-- Characters accepted by Python `str.strip()` / `int()` / `float()`
as surrounding whitespace. -/
def isPySpace (c : Char) : Bool :=
  c = ' ' || c = '\t' || c = '\n' || c = '\r' || c = '\x0b' || c = '\x0c'

/-- Python `str.strip()` on a list of characters. -/
def pstrip (s : List Char) : List Char :=
  ((s.dropWhile isPySpace).reverse.dropWhile isPySpace).reverse

/-- Numeric value of a list of decimal digits (most significant first). -/
def digitsVal (s : List Char) : ℕ :=
  s.foldl (fun acc c => acc * 10 + (c.toNat - '0'.toNat)) 0

/-- `s` is nonempty and consists only of decimal digits. -/
def allDigits (s : List Char) : Bool :=
  !s.isEmpty && s.all (fun c => '0' ≤ c && c ≤ '9')

/-- Python `int(s)`: optional surrounding whitespace, optional sign, a
nonempty digit run.  Returns `none` where Python raises `ValueError`.
(Underscore digit separators, accepted by CPython, are not modelled;
none of the verified inputs use them.) -/
def pyInt? (s : List Char) : Option ℤ :=
  match pstrip s with
  | '+' :: rest => if allDigits rest then some (digitsVal rest) else none
  | '-' :: rest => if allDigits rest then some (-(digitsVal rest : ℤ)) else none
  | rest => if allDigits rest then some (digitsVal rest) else none

/-- Decimal digit test. -/
def isDigitChar (c : Char) : Bool := '0' ≤ c && c ≤ '9'

/-- Unsigned part of a Python float literal: `d+`, `d+.d*` or `.d+`,
optionally followed by an exponent `e`/`E` with optional sign and a
nonempty digit run.  Returns the exact rational value. -/
def pyFloatCore? (s : List Char) : Option ℚ :=
  let ipart := s.takeWhile isDigitChar
  let rest1 := s.dropWhile isDigitChar
  let fpart := if rest1.head? = some '.' then rest1.tail.takeWhile isDigitChar else []
  let rest2 := if rest1.head? = some '.' then rest1.tail.dropWhile isDigitChar else rest1
  if ipart.isEmpty && fpart.isEmpty then none
  else
    let mant : ℚ := (digitsVal ipart : ℚ) + (digitsVal fpart : ℚ) / (10 : ℚ) ^ fpart.length
    if rest2.isEmpty then some mant
    else if rest2.head? = some 'e' ∨ rest2.head? = some 'E' then
      let ex := rest2.tail
      if ex.head? = some '+' then
        (if allDigits ex.tail then some (mant * (10 : ℚ) ^ digitsVal ex.tail) else none)
      else if ex.head? = some '-' then
        (if allDigits ex.tail then some (mant / (10 : ℚ) ^ digitsVal ex.tail) else none)
      else (if allDigits ex then some (mant * (10 : ℚ) ^ digitsVal ex) else none)
    else none

/-- Python `float(s)` restricted to finite decimal notation.  Returns
`none` where Python raises `ValueError`.  (`inf`/`nan` spellings, which
have no rational counterpart, and underscore separators are not
modelled; no TLE field uses them.) -/
def pyFloat? (s : List Char) : Option ℚ :=
  if (pstrip s).head? = some '+' then pyFloatCore? (pstrip s).tail
  else if (pstrip s).head? = some '-' then (pyFloatCore? (pstrip s).tail).map (fun q => -q)
  else pyFloatCore? (pstrip s)

/-- Python float modulo `x % y` for `y ≠ 0`: result has the sign of `y`,
`x % y = x - y * floor (x / y)`. -/
def qmod (x y : ℚ) : ℚ := x - y * (⌊x / y⌋ : ℚ)

theorem qmod_nonneg (x y : ℚ) (hy : 0 < y) : 0 ≤ qmod x y := by
  have h := Int.floor_le (x / y)
  have h2 : (⌊x / y⌋ : ℚ) * y ≤ x := by
    rw [← le_div_iff₀ hy]; exact h
  simp only [qmod]; linarith

theorem qmod_lt (x y : ℚ) (hy : 0 < y) : qmod x y < y := by
  have h := Int.lt_floor_add_one (x / y)
  have h2 : x < ((⌊x / y⌋ : ℚ) + 1) * y := by
    rw [← div_lt_iff₀ hy]; exact h
  simp only [qmod]; linarith

theorem qmod_sub_int (x y : ℚ) : ∃ z : ℤ, qmod x y = x - y * z :=
  ⟨⌊x / y⌋, rfl⟩

/-- The transcendental kernel: stand-ins for the `math`-module functions
used by the Python code.  Every embedded function is parametric in a
kernel; theorems state which true-function facts (for example
`sin 0 = 0`) they rely on. -/
structure MathKernel where
  sin : ℚ → ℚ
  cos : ℚ → ℚ
  asin : ℚ → ℚ
  atan2 : ℚ → ℚ → ℚ
  sqrt : ℚ → ℚ
  cbrt : ℚ → ℚ
  pi : ℚ

/-- `math.radians(x) = x * pi / 180`. -/
def radians (k : MathKernel) (x : ℚ) : ℚ := x * k.pi / 180

/-- `math.degrees(x) = x * 180 / pi`. -/
def degreesOf (k : MathKernel) (x : ℚ) : ℚ := x * 180 / k.pi

theorem normHi_measure {lon : ℚ} (h : 180 < lon) :
    (⌈(lon - 360 - 180) / 360⌉).toNat < (⌈(lon - 180) / 360⌉).toNat := by
  have h0 : (0 : ℚ) < lon - 180 := by linarith
  have h1 : (0 : ℚ) < (lon - 180) / 360 := by positivity
  have h2 : (1 : ℤ) ≤ ⌈(lon - 180) / 360⌉ := Int.one_le_ceil_iff.mpr h1
  have h3 : ⌈(lon - 360 - 180) / 360⌉ = ⌈(lon - 180) / 360⌉ - 1 := by
    have he : (lon - 360 - 180) / 360 = (lon - 180) / 360 + (-1 : ℤ) := by
      push_cast; ring
    rw [he, Int.ceil_add_int]; ring
  omega

theorem normLo_measure {lon : ℚ} (h : lon < -180) :
    (⌈(-180 - (lon + 360)) / 360⌉).toNat < (⌈(-180 - lon) / 360⌉).toNat := by
  have h0 : (0 : ℚ) < -180 - lon := by linarith
  have h1 : (0 : ℚ) < (-180 - lon) / 360 := by positivity
  have h2 : (1 : ℤ) ≤ ⌈(-180 - lon) / 360⌉ := Int.one_le_ceil_iff.mpr h1
  have h3 : ⌈(-180 - (lon + 360)) / 360⌉ = ⌈(-180 - lon) / 360⌉ - 1 := by
    have he : (-180 - (lon + 360)) / 360 = (-180 - lon) / 360 + (-1 : ℤ) := by
      push_cast; ring
    rw [he, Int.ceil_add_int]; ring
  omega

/-- Loop `while lon > 180: lon -= 360` (shared by
`satellites._calculate_satellite_position` and
`spacetrack._eci_to_geodetic`). -/
def normLonHi (lon : ℚ) : ℚ :=
  if h : 180 < lon then normLonHi (lon - 360) else lon
termination_by (⌈(lon - 180) / 360⌉).toNat
decreasing_by
  exact normHi_measure h

/-- Loop `while lon < -180: lon += 360` (same two call sites). -/
def normLonLo (lon : ℚ) : ℚ :=
  if h : lon < -180 then normLonLo (lon + 360) else lon
termination_by (⌈(-180 - lon) / 360⌉).toNat
decreasing_by
  exact normLo_measure h

theorem normLonHi_of_le {lon : ℚ} (h : lon ≤ 180) : normLonHi lon = lon := by
  rw [normLonHi]
  simp [not_lt.mpr h]

theorem normLonLo_of_ge {lon : ℚ} (h : -180 ≤ lon) : normLonLo lon = lon := by
  rw [normLonLo]
  simp [not_lt.mpr h]

theorem normLonHi_le (lon : ℚ) : normLonHi lon ≤ 180 := by
  rw [normLonHi]
  split
  · exact normLonHi_le (lon - 360)
  · linarith [not_lt.mp (by assumption : ¬180 < lon)]
termination_by (⌈(lon - 180) / 360⌉).toNat
decreasing_by
  exact normHi_measure (by assumption)

theorem normLonHi_ge {lon : ℚ} (h : -180 ≤ lon) : -180 ≤ normLonHi lon := by
  rw [normLonHi]
  split
  · have h2 : 180 < lon := by assumption
    exact normLonHi_ge (by linarith)
  · exact h
termination_by (⌈(lon - 180) / 360⌉).toNat
decreasing_by
  exact normHi_measure (by assumption)

theorem normLonLo_ge (lon : ℚ) : -180 ≤ normLonLo lon := by
  rw [normLonLo]
  split
  · exact normLonLo_ge (lon + 360)
  · linarith [not_lt.mp (by assumption : ¬lon < -180)]
termination_by (⌈(-180 - lon) / 360⌉).toNat
decreasing_by
  exact normLo_measure (by assumption)

theorem normLonLo_le {lon : ℚ} (h : lon ≤ 180) : normLonLo lon ≤ 180 := by
  rw [normLonLo]
  split
  · have h2 : lon < -180 := by assumption
    exact normLonLo_le (by linarith)
  · exact h
termination_by (⌈(-180 - lon) / 360⌉).toNat
decreasing_by
  exact normLo_measure (by assumption)

/-- One insertion step of Python's stable descending sort
(`list.sort(key=..., reverse=True)` / `sorted(..., reverse=True)`):
the new element `x` is placed after every earlier element whose key is
strictly greater, and before every element whose key is `≤ key x`, so
equal-key elements keep their input order. -/
def insertDesc {α : Type} (key : α → ℚ) (x : α) : List α → List α
  | [] => [x]
  | y :: ys => if key x < key y then y :: insertDesc key x ys else x :: y :: ys

/-- Python's stable descending sort by a rational key. -/
def sortStableDesc {α : Type} (key : α → ℚ) : List α → List α
  | [] => []
  | x :: xs => insertDesc key x (sortStableDesc key xs)

theorem mem_insertDesc {α : Type} (key : α → ℚ) (x a : α) :
    ∀ l : List α, a ∈ insertDesc key x l ↔ a = x ∨ a ∈ l
  | [] => by simp [insertDesc]
  | y :: ys => by
    simp only [insertDesc]
    split
    · rw [List.mem_cons, mem_insertDesc key x a ys, List.mem_cons]
      tauto
    · rw [List.mem_cons, List.mem_cons]

theorem insertDesc_perm {α : Type} (key : α → ℚ) (x : α) :
    ∀ l : List α, (insertDesc key x l).Perm (x :: l)
  | [] => List.Perm.refl _
  | y :: ys => by
    simp only [insertDesc]
    split
    · exact ((insertDesc_perm key x ys).cons y).trans (List.Perm.swap x y ys)
    · exact List.Perm.refl _

theorem sortStableDesc_perm {α : Type} (key : α → ℚ) :
    ∀ l : List α, (sortStableDesc key l).Perm l
  | [] => List.Perm.refl _
  | x :: xs =>
    (insertDesc_perm key x (sortStableDesc key xs)).trans
      ((sortStableDesc_perm key xs).cons x)

theorem insertDesc_pairwise {α : Type} (key : α → ℚ) (x : α) :
    ∀ l : List α, l.Pairwise (fun a b => key b ≤ key a) →
      (insertDesc key x l).Pairwise (fun a b => key b ≤ key a)
  | [], _ => by simp [insertDesc]
  | y :: ys, h => by
    rcases List.pairwise_cons.mp h with ⟨hy, hys⟩
    simp only [insertDesc]
    split
    · rename_i hlt
      refine List.pairwise_cons.mpr ⟨?_, insertDesc_pairwise key x ys hys⟩
      intro b hb
      rcases (mem_insertDesc key x b ys).mp hb with rfl | hb2
      · exact le_of_lt hlt
      · exact hy b hb2
    · rename_i hnlt
      refine List.pairwise_cons.mpr ⟨?_, h⟩
      intro b hb
      rcases List.mem_cons.mp hb with rfl | hb2
      · exact not_lt.mp hnlt
      · exact le_trans (hy b hb2) (not_lt.mp hnlt)

theorem sortStableDesc_pairwise {α : Type} (key : α → ℚ) :
    ∀ l : List α, (sortStableDesc key l).Pairwise (fun a b => key b ≤ key a)
  | [] => by simp [sortStableDesc]
  | x :: xs =>
    insertDesc_pairwise key x (sortStableDesc key xs) (sortStableDesc_pairwise key xs)

theorem insertDesc_filter_eq {α : Type} (key : α → ℚ) (x : α) (q : ℚ) (hx : key x = q) :
    ∀ l : List α, l.Pairwise (fun a b => key b ≤ key a) →
      (insertDesc key x l).filter (fun a => decide (key a = q))
        = x :: l.filter (fun a => decide (key a = q))
  | [], _ => by simp [insertDesc, hx]
  | y :: ys, h => by
    rcases List.pairwise_cons.mp h with ⟨_, hys⟩
    simp only [insertDesc]
    split
    · rename_i hlt
      have hyne : ¬(key y = q) := by
        intro he
        rw [hx, ← he] at hlt
        exact lt_irrefl _ hlt
      simp only [List.filter_cons, decide_eq_true_eq]
      rw [if_neg hyne, if_neg hyne]
      exact insertDesc_filter_eq key x q hx ys hys
    · simp only [List.filter_cons, decide_eq_true_eq]
      rw [if_pos hx]

theorem insertDesc_filter_ne {α : Type} (key : α → ℚ) (x : α) (q : ℚ) (hx : ¬(key x = q)) :
    ∀ l : List α,
      (insertDesc key x l).filter (fun a => decide (key a = q))
        = l.filter (fun a => decide (key a = q))
  | [] => by simp [insertDesc, hx]
  | y :: ys => by
    simp only [insertDesc]
    split
    · simp only [List.filter_cons]
      rw [insertDesc_filter_ne key x q hx ys]
    · simp only [List.filter_cons, decide_eq_true_eq]
      rw [if_neg hx]

/-- Stability of the descending sort: inside every equal-key class the
input order is preserved. -/
theorem sortStableDesc_filter {α : Type} (key : α → ℚ) (q : ℚ) :
    ∀ l : List α,
      (sortStableDesc key l).filter (fun a => decide (key a = q))
        = l.filter (fun a => decide (key a = q))
  | [] => rfl
  | x :: xs => by
    simp only [sortStableDesc]
    by_cases hx : key x = q
    · rw [insertDesc_filter_eq key x q hx _ (sortStableDesc_pairwise key xs),
        sortStableDesc_filter key q xs]
      simp only [List.filter_cons, decide_eq_true_eq]
      rw [if_pos hx]
    · rw [insertDesc_filter_ne key x q hx, sortStableDesc_filter key q xs]
      simp only [List.filter_cons, decide_eq_true_eq]
      rw [if_neg hx]

theorem mem_sortStableDesc {α : Type} (key : α → ℚ) (a : α) (l : List α) :
    a ∈ sortStableDesc key l ↔ a ∈ l :=
  (sortStableDesc_perm key l).mem_iff

/-- One satellite entry of a constellation snapshot.  The Python code
builds dicts whose altitude/velocity keys vary per path
(`altitude_km`/`alt`, `velocity_kmh`/`velocity`); the numeric content is
modelled by one structure.  Extra cosmetic keys (`visibility`,
`hardware_version`, `status`, `timestamp`) do not enter any claim and
are omitted. -/
structure Position where
  name : String
  norad_id : ℤ
  lat : ℚ
  lng : ℚ
  alt : ℚ
  velocity : ℚ
deriving DecidableEq

/-- A constellation snapshot dict as produced by every collector path
(`timestamp`, `satellite_count`, `positions_calculated`, `positions`,
`data_source`, `tle_age_hours`; the optional `note`/`coverage` keys are
omitted). -/
structure Snapshot where
  timestamp : ℚ
  satellite_count : ℕ
  positions_calculated : ℕ
  positions : List Position
  data_source : String
  tle_age_hours : ℚ
deriving DecidableEq

/-- A stored TLE record (`{'name','line1','line2','norad_id','epoch'}`). -/
structure TLESat where
  name : String
  line1 : List Char
  line2 : List Char
  norad_id : ℤ
  epoch : ℚ
deriving DecidableEq

/-- Python slice `s[a:b]`. -/
def pySlice (s : List Char) (a b : ℕ) : List Char := (s.drop a).take (b - a)

/-- The triplet grouping of `_fetch_starlink_tle_data`:
`for i in range(0, len(lines), 3): if i + 2 < len(lines): ...` — only
complete name/line1/line2 triplets are considered, a trailing partial
group is ignored. -/
def chunks3 {α : Type} : List α → List (α × α × α)
  | a :: b :: c :: rest => (a, b, c) :: chunks3 rest
  | _ => []

namespace Satellites

/-- Day number (days since 0001-01-01) of January 1st of `year`,
proleptic Gregorian — the value underlying Python's
`datetime(year, 1, 1)`. -/
def jan1DayNumber (year : ℤ) : ℤ :=
  365 * (year - 1) + (year - 1) / 4 - (year - 1) / 100 + (year - 1) / 400

/-- `_parse_tle_epoch`: two-digit year with the `< 57` pivot, fractional
day of year, `datetime(year,1,1) + timedelta(days=day_of_year-1)`.
Any parse failure or out-of-range date raises inside the `try` block and
the `except` branch returns `datetime.now(timezone.utc)` — the `now`
argument here.  Result is in seconds since 0001-01-01. -/
def parse_tle_epoch (epoch_str : List Char) (now : ℚ) : ℚ :=
  match pyInt? (epoch_str.take 2), pyFloat? (epoch_str.drop 2) with
  | some y, some day_of_year =>
    let year := if y < 57 then y + 2000 else y + 1900
    let dayNum : ℚ := (jan1DayNumber year : ℚ) + (day_of_year - 1)
    if 0 ≤ dayNum ∧ dayNum < (jan1DayNumber 10000 : ℚ) then dayNum * 86400 else now
  | _, _ => now

/-- Validation and record construction for one stripped TLE triplet
(the body of the `for i in range(0, len(lines), 3)` loop):
both data lines must be exactly 69 characters and start with `'1'` /
`'2'`; `int(line1[2:7])` must parse (otherwise the `ValueError` handler
skips the entry).  `_parse_tle_epoch` never raises. -/
def parseTriple (now : ℚ) (t : List Char × List Char × List Char) : Option TLESat :=
  let name := pstrip t.1
  let line1 := pstrip t.2.1
  let line2 := pstrip t.2.2
  if line1.length = 69 ∧ line2.length = 69 ∧
      line1.head? = some '1' ∧ line2.head? = some '2' then
    match pyInt? (pySlice line1 2 7) with
    | some nid =>
      some ⟨String.mk name, line1, line2, nid, parse_tle_epoch (pySlice line1 18 32) now⟩
    | none => none
  else none

/-- The TLE parsing loop of `_fetch_starlink_tle_data` applied to the
already-split lines of the response body. -/
def parse_tle_lines (lines : List (List Char)) (now : ℚ) : List TLESat :=
  (chunks3 lines).filterMap (parseTriple now)

/-- Mutable state of a `SatelliteCollector` instance. -/
structure SatelliteCollector where
  starlink_satellites : List TLESat
  last_tle_fetch : Option ℚ
deriving DecidableEq

/-- A freshly constructed `SatelliteCollector()`. -/
def freshCollector : SatelliteCollector := ⟨[], none⟩

/-- `tle_cache_duration = 3600` seconds. -/
def tle_cache_duration : ℚ := 3600

def _should_update_tle (self : SatelliteCollector) (now : ℚ) : Bool :=
  match self.last_tle_fetch with
  | none => true
  | some t => now - t > tle_cache_duration

/-- `_fetch_starlink_tle_data`.  The network interaction is abstracted
to `content?`: `none` when the HTTP request fails, times out, returns a
non-200 status or exceeds the size limit (all of which return `False`),
`some lines` for a successful download split into lines.  On success
with at least one valid record the whole working set is replaced and the
fetch timestamp reset; with zero valid records it returns `False` and
leaves the state unchanged. -/
def _fetch_starlink_tle_data (self : SatelliteCollector)
    (content? : Option (List (List Char))) (now : ℚ) : Bool × SatelliteCollector :=
  match content? with
  | none => (false, self)
  | some lines =>
    let satellites := parse_tle_lines lines now
    if satellites.length = 0 then (false, self)
    else (true, { self with starlink_satellites := satellites, last_tle_fetch := some now })

def _get_tle_age_hours (self : SatelliteCollector) (now : ℚ) : ℚ :=
  match self.last_tle_fetch with
  | none => 0
  | some t => (now - t) / 3600

/-- `_get_sample_satellite_data`: the deterministic 10-satellite demo
snapshot returned whenever live data is unavailable. -/
def _get_sample_satellite_data (now : ℚ) : Snapshot :=
  { timestamp := now
    satellite_count := 10
    positions_calculated := 10
    positions := (List.range 10).map (fun i =>
      { name := "STARLINK-" ++ toString (1000 + i)
        norad_id := (50000 : ℤ) + i
        lat := -60 + (i : ℚ) * 15
        lng := -180 + (i : ℚ) * 36
        alt := 550
        velocity := 27000 })
    data_source := "sample_data"
    tle_age_hours := 0 }

/-- `mu = 398600.4418`, Earth's gravitational parameter. -/
def mu : ℚ := 398600.4418

/-- `n = mean_motion * 2 * math.pi / 86400` (rad/s). -/
def mean_motion_rad (k : MathKernel) (mean_motion : ℚ) : ℚ :=
  mean_motion * 2 * k.pi / 86400

/-- `a = (mu / n**2) ** (1/3)` — semi-major axis from Kepler's third
law. -/
def semi_major_axis (k : MathKernel) (mean_motion : ℚ) : ℚ :=
  k.cbrt (mu / (mean_motion_rad k mean_motion) ^ 2)

/-- `current_mean_anomaly = (mean_anomaly + mean_motion * 360.0 * time_diff) % 360.0`. -/
def current_mean_anomaly (mean_anomaly mean_motion time_diff : ℚ) : ℚ :=
  qmod (mean_anomaly + mean_motion * 360 * time_diff) 360

/-- `E = M + eccentricity * math.sin(M)` — the single Kepler correction
step; it is not iterated. -/
def eccentric_anomaly (k : MathKernel) (eccentricity M : ℚ) : ℚ :=
  M + eccentricity * k.sin M

/-- `nu = 2 * atan2(sqrt(1+e) * sin(E/2), sqrt(1-e) * cos(E/2))`. -/
def true_anomaly (k : MathKernel) (eccentricity E : ℚ) : ℚ :=
  2 * k.atan2 (k.sqrt (1 + eccentricity) * k.sin (E / 2))
    (k.sqrt (1 - eccentricity) * k.cos (E / 2))

/-- The six `float(...)` field extractions of
`_calculate_satellite_position`; any `ValueError` is caught by the
surrounding `except`, which returns `None`. -/
structure Elements where
  inclination : ℚ
  raan : ℚ
  eccentricity : ℚ
  arg_perigee : ℚ
  mean_anomaly : ℚ
  mean_motion : ℚ
deriving DecidableEq

def parse_line2_elements (line2 : List Char) : Option Elements :=
  match pyFloat? (pySlice line2 8 16), pyFloat? (pySlice line2 17 25),
      pyFloat? ('0' :: '.' :: pySlice line2 26 33), pyFloat? (pySlice line2 34 42),
      pyFloat? (pySlice line2 43 51), pyFloat? (pySlice line2 52 63) with
  | some i, some ra, some e, some ap, some ma, some mm =>
    some ⟨i, ra, e, ap, ma, mm⟩
  | _, _, _, _, _, _ => none

/-- `_calculate_satellite_position`: the simplified (approximate)
propagator.  Guards mirror the Python exception sites caught by the
wrapping `except`-returns-`None`: field parsing (`ValueError`),
`mu / n**2` with `n = 0` (`ZeroDivisionError`), `math.sqrt(mu/r)` with
`r ≤ 0` (`ZeroDivisionError`/domain error). -/
def _calculate_satellite_position (k : MathKernel) (sat : TLESat)
    (timestamp : ℚ) : Option Position :=
  match parse_line2_elements sat.line2 with
  | none => none
  | some el =>
    let time_diff := (timestamp - sat.epoch) / 86400
    let cma := current_mean_anomaly el.mean_anomaly el.mean_motion time_diff
    let n := mean_motion_rad k el.mean_motion
    if n = 0 then none
    else
      let a := semi_major_axis k el.mean_motion
      let M := radians k cma
      let E := eccentric_anomaly k el.eccentricity M
      let nu := true_anomaly k el.eccentricity E
      let r := a * (1 - el.eccentricity * k.cos E)
      let x_orbit := r * k.cos nu
      let y_orbit := r * k.sin nu
      let lat0 := degreesOf k (k.asin (k.sin (radians k el.inclination) * k.sin nu))
      let lon0 := degreesOf k (k.atan2 y_orbit x_orbit + radians k el.raan)
      let lon := normLonLo (normLonHi lon0)
      let lat := max (-90) (min 90 lat0)
      if r ≤ 0 then none
      else some ⟨sat.name, sat.norad_id, lat, lon, r - 6371, k.sqrt (mu / r) * 3.6⟩

/-- The snapshot built on the live path of the CelesTrak collector's
`get_starlink_constellation` (at most 20 satellites propagated,
per-satellite propagation failures skipped). -/
def constellation_snapshot (k : MathKernel) (self2 : SatelliteCollector)
    (now : ℚ) : Snapshot :=
  let positions := (self2.starlink_satellites.take 20).filterMap
    (fun sat => _calculate_satellite_position k sat now)
  { timestamp := now
    satellite_count := self2.starlink_satellites.length
    positions_calculated := positions.length
    positions := positions
    data_source := "celestrak_tle"
    tle_age_hours := _get_tle_age_hours self2 now }

/-- `get_starlink_constellation` of the CelesTrak collector: refresh the
TLE cache when stale (falling back to the sample snapshot when the fetch
fails or the working set is empty), then propagate.  Returns the
snapshot and the updated collector state. -/
def get_starlink_constellation (k : MathKernel) (self : SatelliteCollector)
    (content? : Option (List (List Char))) (now : ℚ) : Snapshot × SatelliteCollector :=
  if _should_update_tle self now then
    match _fetch_starlink_tle_data self content? now with
    | (false, self2) => (_get_sample_satellite_data now, self2)
    | (true, self2) =>
      if self2.starlink_satellites.isEmpty then (_get_sample_satellite_data now, self2)
      else (constellation_snapshot k self2 now, self2)
  else
    if self.starlink_satellites.isEmpty then (_get_sample_satellite_data now, self)
    else (constellation_snapshot k self now, self)

/-- `_calculate_elevation_angle`.  The two `if` guards are the division
sites where Python raises `ZeroDivisionError`; the surrounding
`except` returns `0.0`. -/
def _calculate_elevation_angle (k : MathKernel)
    (obs_lat obs_lon obs_alt sat_lat sat_lon sat_alt : ℚ) : ℚ :=
  let R : ℚ := 6371
  let obs_lat_rad := radians k obs_lat
  let obs_lon_rad := radians k obs_lon
  let sat_lat_rad := radians k sat_lat
  let sat_lon_rad := radians k sat_lon
  let obs_x := (R + obs_alt) * k.cos obs_lat_rad * k.cos obs_lon_rad
  let obs_y := (R + obs_alt) * k.cos obs_lat_rad * k.sin obs_lon_rad
  let obs_z := (R + obs_alt) * k.sin obs_lat_rad
  let sat_x := (R + sat_alt) * k.cos sat_lat_rad * k.cos sat_lon_rad
  let sat_y := (R + sat_alt) * k.cos sat_lat_rad * k.sin sat_lon_rad
  let sat_z := (R + sat_alt) * k.sin sat_lat_rad
  let dx := sat_x - obs_x
  let dy := sat_y - obs_y
  let dz := sat_z - obs_z
  let distance := k.sqrt (dx * dx + dy * dy + dz * dz)
  if R + obs_alt = 0 then 0
  else if distance = 0 then 0
  else
    let up_x := obs_x / (R + obs_alt)
    let up_y := obs_y / (R + obs_alt)
    let up_z := obs_z / (R + obs_alt)
    let dot_product := (dx * up_x + dy * up_y + dz * up_z) / distance
    degreesOf k (k.asin (max (-1) (min 1 dot_product)))

/-- `_calculate_azimuth`: spherical bearing, result folded into
`[0, 360)` by `(azimuth + 360) % 360`.  The body is total, so the
`except`-returns-`0.0` handler is dead code. -/
def _calculate_azimuth (k : MathKernel)
    (obs_lat obs_lon sat_lat sat_lon : ℚ) : ℚ :=
  let obs_lat_rad := radians k obs_lat
  let obs_lon_rad := radians k obs_lon
  let sat_lat_rad := radians k sat_lat
  let sat_lon_rad := radians k sat_lon
  let dlon := sat_lon_rad - obs_lon_rad
  let y := k.sin dlon * k.cos sat_lat_rad
  let x := k.cos obs_lat_rad * k.sin sat_lat_rad -
    k.sin obs_lat_rad * k.cos sat_lat_rad * k.cos dlon
  qmod (degreesOf k (k.atan2 y x) + 360) 360

/-- `_calculate_distance`: Euclidean distance between the two
spherical-ECEF points. -/
def _calculate_distance (k : MathKernel)
    (lat1 lon1 alt1 lat2 lon2 alt2 : ℚ) : ℚ :=
  let R : ℚ := 6371
  let lat1_rad := radians k lat1
  let lon1_rad := radians k lon1
  let lat2_rad := radians k lat2
  let lon2_rad := radians k lon2
  let x1 := (R + alt1) * k.cos lat1_rad * k.cos lon1_rad
  let y1 := (R + alt1) * k.cos lat1_rad * k.sin lon1_rad
  let z1 := (R + alt1) * k.sin lat1_rad
  let x2 := (R + alt2) * k.cos lat2_rad * k.cos lon2_rad
  let y2 := (R + alt2) * k.cos lat2_rad * k.sin lon2_rad
  let z2 := (R + alt2) * k.sin lat2_rad
  k.sqrt ((x2 - x1) ^ 2 + (y2 - y1) ^ 2 + (z2 - z1) ^ 2)

/-- One result row of `get_satellites_over_location`. -/
structure VisibleSat where
  name : String
  norad_id : ℤ
  elevation_degrees : ℚ
  azimuth_degrees : ℚ
  distance_km : ℚ
  lat : ℚ
  lng : ℚ
  altitude_km : ℚ
deriving DecidableEq

/-- The filtering loop of `get_satellites_over_location`, before the
final sort: propagation failures are skipped (`continue`), satellites
below the elevation threshold are dropped. -/
def visible_satellites_unsorted (k : MathKernel) (self : SatelliteCollector)
    (lat lon elevation_degrees now : ℚ) : List VisibleSat :=
  self.starlink_satellites.filterMap (fun sat =>
    match _calculate_satellite_position k sat now with
    | none => none
    | some p =>
      let elevation := _calculate_elevation_angle k lat lon 0 p.lat p.lng p.alt
      if elevation_degrees ≤ elevation then
        some { name := p.name
               norad_id := p.norad_id
               elevation_degrees := elevation
               azimuth_degrees := _calculate_azimuth k lat lon p.lat p.lng
               distance_km := _calculate_distance k lat lon 0 p.lat p.lng p.alt
               lat := p.lat
               lng := p.lng
               altitude_km := p.alt }
      else none)

/-- `get_satellites_over_location`: filter then
`visible_satellites.sort(key=lambda x: x['elevation_degrees'], reverse=True)`
(a stable descending sort). -/
def get_satellites_over_location (k : MathKernel) (self : SatelliteCollector)
    (lat lon elevation_degrees now : ℚ) : List VisibleSat :=
  sortStableDesc (fun v => v.elevation_degrees)
    (visible_satellites_unsorted k self lat lon elevation_degrees now)

end Satellites

namespace SpaceTrack

/-- WGS-84 semi-major axis (km) used by `_eci_to_geodetic`. -/
def a_wgs : ℚ := 6378.137

/-- WGS-84 flattening. -/
def f_wgs : ℚ := 1 / 298.257223563

/-- First eccentricity squared `e2 = 2f - f*f`. -/
def e2_wgs : ℚ := 2 * f_wgs - f_wgs * f_wgs

/-- One pass of the latitude fixed-point loop of `_eci_to_geodetic`
(`N`, `alt`, then `lat = atan2(z, p * (1 - e2 * N / (N + alt)))`).
Rational division by zero yields `0` where a degenerate Python input
would raise; the longitude output, the only field a claim constrains,
is computed before this loop and is unaffected. -/
def geodetic_lat_step (k : MathKernel) (z p lat : ℚ) : ℚ :=
  let N := a_wgs / k.sqrt (1 - e2_wgs * (k.sin lat) ^ 2)
  let alt := p / k.cos lat - N
  k.atan2 z (p * (1 - e2_wgs * N / (N + alt)))

/-- `for _ in range(5)` applications of the latitude step. -/
def geodetic_lat_iter (k : MathKernel) (z p lat : ℚ) : ℕ → ℚ
  | 0 => lat
  | m + 1 => geodetic_lat_step k z p (geodetic_lat_iter k z p lat m)

/-- `_eci_to_geodetic`: returns `(lat_deg, lon_deg, alt)`.  Longitude is
`degrees(atan2(y, x))` pushed through the shared `while` normalisation
loops; latitude is the raw 5-step iterate converted to degrees — the
SGP4 path applies no latitude clamp. -/
def _eci_to_geodetic (k : MathKernel) (x y z : ℚ) : ℚ × ℚ × ℚ :=
  let lon := k.atan2 y x
  let p := k.sqrt (x ^ 2 + y ^ 2)
  let lat0 := k.atan2 z (p * (1 - e2_wgs))
  let lat := geodetic_lat_iter k z p lat0 5
  let N := a_wgs / k.sqrt (1 - e2_wgs * (k.sin lat) ^ 2)
  let alt := p / k.cos lat - N
  let lat_deg := degreesOf k lat
  let lon_deg := normLonLo (normLonHi (degreesOf k lon))
  (lat_deg, lon_deg, alt)

/-- `SpaceTrackCollector.get_starlink_constellation` as invoked by the
enhanced collector's `_get_spacetrack_data` (always on a freshly
constructed collector, so `_should_update_tle` is true and a fetch is
attempted).  `fetch_ok` abstracts the authenticated Space-Track query;
`sat_count` is the number of TLE records it returned and
`sgp4_positions` the per-satellite SGP4 results of
`calculate_realtime_positions` (the external `sgp4` library is not
re-verified).  A failed fetch falls back to the inherited
`_get_sample_satellite_data`. -/
def get_starlink_constellation (fetch_ok : Bool) (sat_count : ℕ)
    (sgp4_positions : List Position) (now : ℚ) : Snapshot :=
  if !fetch_ok then Satellites._get_sample_satellite_data now
  else
    { timestamp := now
      satellite_count := sat_count
      positions_calculated := sgp4_positions.length
      positions := sgp4_positions
      data_source := "spacetrack_sgp4"
      tle_age_hours := 0 }

end SpaceTrack

namespace Enhanced

/-- Minimal view of one SatelliteMap.space `satellites` row, with the
`.get(...)` defaults already applied. -/
structure SatInfo where
  norad_id : ℤ
  name : String
deriving DecidableEq

/-- One Aviation Edge `satelliteDatabase` row (defaults of the
`.get(key, default)` accesses applied by the caller model). -/
structure AvSat where
  satelliteName : String
  noradID : ℤ
  lat : ℚ
  lng : ℚ
  alt : ℚ
  velocity : ℚ
deriving DecidableEq

/-- `_calculate_approximate_position`: the randomised placeholder
generator of the SatelliteMap path.  The three `random.uniform` draws
are inputs (`randLat`, `randLng`, `randAlt`); the body is total, so the
`except`-returns-`None` handler is dead code and the result is always
`some`. -/
def _calculate_approximate_position (randLat randLng randAlt : ℚ)
    (sat_info : SatInfo) (timestamp : ℚ) : Option Position :=
  let orbital_period : ℚ := 90
  let time_offset := qmod timestamp (orbital_period * 60) / 60
  let lng_offset := time_offset / orbital_period * 360
  some { name := sat_info.name
         norad_id := sat_info.norad_id
         lat := randLat
         lng := qmod (randLng + lng_offset) 360 - 180
         alt := randAlt
         velocity := 7.66 }

/-- `_get_satellitemap_data`.  `key?` is the session key (`None` when
session creation failed — the function returns `None` immediately);
`resp?` abstracts the HTTP call (`none` for a network error or non-200
status); an empty JSON list is falsy (`if not satellites_info: return
None`).  `rand` supplies the per-index `random.uniform` draws. -/
def _get_satellitemap_data (key? : Option String)
    (resp? : Option (List SatInfo)) (rand : ℕ → ℚ × ℚ × ℚ) (now : ℚ) :
    Option Snapshot :=
  match key? with
  | none => none
  | some _ =>
    match resp? with
    | none => none
    | some satellites_info =>
      if satellites_info.isEmpty then none
      else
        let positions := (satellites_info.take 50).enum.filterMap
          (fun iv =>
            _calculate_approximate_position (rand iv.1).1 (rand iv.1).2.1
              (rand iv.1).2.2 iv.2 now)
        some { timestamp := now
               satellite_count := positions.length
               positions_calculated := positions.length
               positions := positions
               data_source := "satellitemap_enhanced"
               tle_age_hours := 0 }

/-- Lower-cased characters of a name, for
`'starlink' in sat.get('satelliteName', '').lower()`. -/
def lowerChars (s : String) : List Char := s.toList.map Char.toLower

/-- `_process_aviation_edge_data`: keep rows whose name contains
`starlink` (case-insensitive), tag the snapshot
`aviation_edge_premium`. -/
def _process_aviation_edge_data (data : List AvSat) (now : ℚ) : Snapshot :=
  let positions := (data.filter
      (fun sat => decide (("starlink".toList : List Char) <:+: lowerChars sat.satelliteName))).map
    (fun sat =>
      { name := sat.satelliteName
        norad_id := sat.noradID
        lat := sat.lat
        lng := sat.lng
        alt := sat.alt
        velocity := sat.velocity })
  { timestamp := now
    satellite_count := positions.length
    positions_calculated := positions.length
    positions := positions
    data_source := "aviation_edge_premium"
    tle_age_hours := 1 / 10 }

/-- `_get_aviation_edge_data`: `None` without an API key; `None` when
the HTTP call fails or does not return 200 (the function then falls off
the end); otherwise the processed snapshot. -/
def _get_aviation_edge_data (key? : Option String)
    (resp? : Option (List AvSat)) (now : ℚ) : Option Snapshot :=
  match key? with
  | none => none
  | some _ =>
    match resp? with
    | none => none
    | some data => some (_process_aviation_edge_data data now)

/-- `_get_spacetrack_data`: `None` when `authenticate()` fails (for
example missing credentials); otherwise the Space-Track collector's
snapshot. -/
def _get_spacetrack_data (auth_ok : Bool) (fetch_ok : Bool)
    (sat_count : ℕ) (sgp4_positions : List Position) (now : ℚ) :
    Option Snapshot :=
  if !auth_ok then none
  else some (SpaceTrack.get_starlink_constellation fetch_ok sat_count sgp4_positions now)

/-- `_get_celestrak_data`: delegates to a freshly constructed
`SatelliteCollector`. -/
def _get_celestrak_data (k : MathKernel) (content? : Option (List (List Char)))
    (now : ℚ) : Option Snapshot :=
  some (Satellites.get_starlink_constellation k Satellites.freshCollector content? now).1

/-- `_get_fallback_data`: the deterministic 12-satellite snapshot used
when every source fails, tagged `enhanced_fallback`.  (Python operator
precedence: `45.0 + (i * 15) % 90 - 45` is `45 + ((i*15) % 90) - 45`.) -/
def _get_fallback_data (now : ℚ) : Snapshot :=
  { timestamp := now
    satellite_count := 12
    positions_calculated := 12
    positions := (List.range 12).map (fun (i : ℕ) =>
      { name := "STARLINK-" ++ toString (1000 + i)
        norad_id := ((44700 + i : ℕ) : ℤ)
        lat := 45 + ((i * 15 % 90 : ℕ) : ℚ) - 45
        lng := -120 + ((i * 30 % 360 : ℕ) : ℚ)
        alt := 550 + ((i % 3 : ℕ) : ℚ) * 10
        velocity := 7.66 })
    data_source := "enhanced_fallback"
    tle_age_hours := 0 }

/-- Outcome of one provider call inside the `for source in
self.data_sources` loop: it raised (caught by the `except ... continue`
handler), or it returned a value (`None` or a snapshot). -/
inductive ProviderResult where
  | raised : ProviderResult
  | value : Option Snapshot → ProviderResult
deriving DecidableEq

/-- A provider outcome the loop skips: an exception, a `None` return, or
a snapshot whose `positions` list is empty (falsy in
`if data and data.get('positions')`). -/
def providerFails : ProviderResult → Bool
  | .raised => true
  | .value none => true
  | .value (some s) => s.positions.isEmpty

/-- The provider loop: first non-skipped snapshot together with the
number of providers invoked; `none` when every provider fails. -/
def tryProviders : List ProviderResult → Option (Snapshot × ℕ)
  | [] => none
  | r :: rs =>
    match r with
    | .value (some s) =>
      if s.positions.isEmpty then (tryProviders rs).map (fun p => (p.1, p.2 + 1))
      else some (s, 1)
    | _ => (tryProviders rs).map (fun p => (p.1, p.2 + 1))

/-- Cache state of an `EnhancedSatelliteCollector`
(`cached_data = {}` initially, modelled as `none`; any cached snapshot
dict is non-empty hence truthy). -/
structure EnhancedState where
  cached_data : Option Snapshot
  last_update : Option ℚ
deriving DecidableEq

/-- `cache_duration = timedelta(minutes=5)`, in seconds. -/
def cache_duration : ℚ := 300

/-- `_is_cache_valid`. -/
def _is_cache_valid (st : EnhancedState) (now : ℚ) : Bool :=
  match st.last_update, st.cached_data with
  | some t, some _ => now - t < cache_duration
  | _, _ => false

/-- `_cache_data`. -/
def _cache_data (d : Snapshot) (now : ℚ) : EnhancedState :=
  ⟨some d, some now⟩

/-- The cache-miss part of the resolver: run the provider loop; on
success cache and return the snapshot, otherwise return the fallback
snapshot without touching the cache.  The third component counts the
providers invoked. -/
def resolveProviders (st : EnhancedState) (now : ℚ)
    (results : List ProviderResult) : Snapshot × EnhancedState × ℕ :=
  match tryProviders results with
  | some (d, invoked) => (d, _cache_data d now, invoked)
  | none => (_get_fallback_data now, st, results.length)

/-- `EnhancedSatelliteCollector.get_starlink_constellation`, with the
four provider outcomes (in the fixed `data_sources` priority order
`satellitemap_enhanced`, `aviation_edge`, `space_track`,
`celestrak_fallback`) supplied as `results`. -/
def get_starlink_constellation (st : EnhancedState) (now : ℚ)
    (results : List ProviderResult) : Snapshot × EnhancedState × ℕ :=
  match st.cached_data with
  | some c => if _is_cache_valid st now then (c, st, 0) else resolveProviders st now results
  | none => resolveProviders st now results

/-- The resolver applied to the four concrete providers, each modelled
at its failure/success gates. -/
def get_starlink_constellation_full (k : MathKernel) (st : EnhancedState)
    (smKey : Option String) (smResp : Option (List SatInfo)) (smRand : ℕ → ℚ × ℚ × ℚ)
    (avKey : Option String) (avResp : Option (List AvSat))
    (stAuth : Bool) (stFetch : Bool) (stCount : ℕ) (stPos : List Position)
    (celContent : Option (List (List Char))) (now : ℚ) :
    Snapshot × EnhancedState × ℕ :=
  get_starlink_constellation st now
    [ProviderResult.value (_get_satellitemap_data smKey smResp smRand now),
     ProviderResult.value (_get_aviation_edge_data avKey avResp now),
     ProviderResult.value (_get_spacetrack_data stAuth stFetch stCount stPos now),
     ProviderResult.value (_get_celestrak_data k celContent now)]

/-- One row of `get_visible_satellites`: the position dict copied with
`elevation` and `distance` added. -/
structure EnhVisibleSat where
  base : Position
  elevation : ℚ
  distance : ℚ
deriving DecidableEq

/-- The filtering loop of the enhanced `get_visible_satellites`:
great-circle distance via haversine, a 2000 km horizon cut-off, the
simplified elevation `max(0, 90 - distance/100)`, and the
`elevation >= elevation_min` filter. -/
def get_visible_satellites_unsorted (k : MathKernel)
    (constellation : Snapshot) (lat lon elevation_min : ℚ) :
    List EnhVisibleSat :=
  constellation.positions.filterMap (fun sat =>
    let dlat := radians k (sat.lat - lat)
    let dlng := radians k (sat.lng - lon)
    let a := k.sin (dlat / 2) * k.sin (dlat / 2) +
      k.cos (radians k lat) * k.cos (radians k sat.lat) *
        k.sin (dlng / 2) * k.sin (dlng / 2)
    let distance := 2 * k.atan2 (k.sqrt a) (k.sqrt (1 - a)) * 6371
    if distance < 2000 then
      let elevation := max 0 (90 - distance / 100)
      if elevation_min ≤ elevation then some ⟨sat, elevation, distance⟩
      else none
    else none)

/-- `get_visible_satellites`: the filter followed by
`sorted(visible, key=lambda x: x.get('elevation', 0), reverse=True)`
(stable descending). -/
def get_visible_satellites (k : MathKernel) (constellation : Snapshot)
    (lat lon elevation_min : ℚ) : List EnhVisibleSat :=
  sortStableDesc (fun v => v.elevation)
    (get_visible_satellites_unsorted k constellation lat lon elevation_min)

end Enhanced

namespace App

/-- State of `MonitoringService` plus a count of monitoring threads
spawned, to express "start does not spawn a second thread". -/
structure MonitoringState where
  running : Bool
  threads_started : ℕ
deriving DecidableEq

/-- `MonitoringService.start`: early-returns when already running,
otherwise sets the flag and spawns the monitoring thread. -/
def start (s : MonitoringState) : MonitoringState :=
  if s.running then s
  else { running := true, threads_started := s.threads_started + 1 }

/-- `MonitoringService.stop`: clears the flag (the daemon thread
observes it between ticks); spawns nothing. -/
def stop (s : MonitoringState) : MonitoringState :=
  { s with running := false }

end App

theorem get_starlink_constellation_miss (st : Enhanced.EnhancedState) (now : ℚ)
    (results : List Enhanced.ProviderResult)
    (h : Enhanced._is_cache_valid st now = false) :
    Enhanced.get_starlink_constellation st now results
      = Enhanced.resolveProviders st now results := by
  unfold Enhanced.get_starlink_constellation
  cases hc : st.cached_data with
  | none => rfl
  | some c => rw [h]; simp

theorem tryProviders_all_fail :
    ∀ results : List Enhanced.ProviderResult,
      (∀ r ∈ results, Enhanced.providerFails r = true) →
      Enhanced.tryProviders results = none
  | [], _ => rfl
  | r :: rs, h => by
    have hr := h r (List.mem_cons_self r rs)
    have hrs := tryProviders_all_fail rs (fun x hx => h x (List.mem_cons_of_mem r hx))
    cases r with
    | raised => simp [Enhanced.tryProviders, hrs]
    | value o =>
      cases o with
      | none => simp [Enhanced.tryProviders, hrs]
      | some s =>
        have hempty : s.positions.isEmpty = true := hr
        simp [Enhanced.tryProviders, hempty, hrs]

theorem tryProviders_first_success :
    ∀ (fails : List Enhanced.ProviderResult) (rest : List Enhanced.ProviderResult)
      (d : Snapshot),
      (∀ r ∈ fails, Enhanced.providerFails r = true) →
      d.positions ≠ [] →
      Enhanced.tryProviders (fails ++ Enhanced.ProviderResult.value (some d) :: rest)
        = some (d, fails.length + 1)
  | [], rest, d, _, hd => by
    have hne : d.positions.isEmpty = false := by
      simp [List.isEmpty_iff, hd]
    simp [Enhanced.tryProviders, hne]
  | f :: fs, rest, d, h, hd => by
    have hf := h f (List.mem_cons_self f fs)
    have ih := tryProviders_first_success fs rest d
      (fun x hx => h x (List.mem_cons_of_mem f hx)) hd
    cases f with
    | raised => simp [Enhanced.tryProviders, ih]
    | value o =>
      cases o with
      | none => simp [Enhanced.tryProviders, ih]
      | some s =>
        have hempty : s.positions.isEmpty = true := hf
        simp [Enhanced.tryProviders, hempty, ih]

/-- C8: `MonitoringService.start` on an already-running service is a
no-op (the state is unchanged and no second monitoring thread is
spawned), and `MonitoringService.stop` on an already-stopped service is
a no-op. -/
theorem c8_lifecycle_idempotent :
    ∀ t : ℕ,
      App.start ⟨true, t⟩ = ⟨true, t⟩
      ∧ App.stop ⟨false, t⟩ = ⟨false, t⟩ := by
  intro t
  constructor
  · simp [App.start]
  · simp [App.stop]

/-- C9: every snapshot constructor of every collector path (live
CelesTrak TLE, SatelliteMap, Aviation Edge, the sample data and the
enhanced fallback) sets `positions_calculated` to the length of its
`positions` list. -/
theorem c9_positions_calculated_eq_length :
    ∀ (k : MathKernel) (self : Satellites.SatelliteCollector)
      (content? : Option (List (List Char))) (now : ℚ)
      (key? : Option String) (resp? : Option (List Enhanced.SatInfo))
      (rand : ℕ → ℚ × ℚ × ℚ) (data : List Enhanced.AvSat),
      ((Satellites.get_starlink_constellation k self content? now).1.positions_calculated
          = (Satellites.get_starlink_constellation k self content? now).1.positions.length)
      ∧ ((Satellites._get_sample_satellite_data now).positions_calculated
          = (Satellites._get_sample_satellite_data now).positions.length)
      ∧ ((Enhanced._get_satellitemap_data key? resp? rand now).all
          (fun s => s.positions_calculated == s.positions.length) = true)
      ∧ ((Enhanced._process_aviation_edge_data data now).positions_calculated
          = (Enhanced._process_aviation_edge_data data now).positions.length)
      ∧ ((Enhanced._get_fallback_data now).positions_calculated
          = (Enhanced._get_fallback_data now).positions.length) := by
  intro k self content? now key? resp? rand data
  have hsample : (Satellites._get_sample_satellite_data now).positions_calculated
      = (Satellites._get_sample_satellite_data now).positions.length := rfl
  refine ⟨?_, hsample, ?_, ?_, ?_⟩
  · unfold Satellites.get_starlink_constellation
    split
    · split
      · exact hsample
      · split
        · exact hsample
        · rfl
    · split
      · exact hsample
      · rfl
  · cases key? with
    | none => rfl
    | some key =>
      cases resp? with
      | none => rfl
      | some info =>
        by_cases hi : info.isEmpty
        · simp [Enhanced._get_satellitemap_data, hi]
        · simp [Enhanced._get_satellitemap_data, hi]
  · rfl
  · simp [Enhanced._get_fallback_data]

/-- C2 (amended): when the cache is invalid and every provider fails
(raises, returns `None`, or returns a snapshot with empty positions),
the resolver returns the deterministic fallback snapshot instead of
raising; its `data_source` is `"enhanced_fallback"` (the claim said
`"fallback"`) and its positions list is non-empty. -/
theorem c2_all_sources_fail_fallback :
    ∀ (st : Enhanced.EnhancedState) (now : ℚ)
      (results : List Enhanced.ProviderResult),
      Enhanced._is_cache_valid st now = false →
      (∀ r ∈ results, Enhanced.providerFails r = true) →
      Enhanced.get_starlink_constellation st now results
          = (Enhanced._get_fallback_data now, st, results.length)
      ∧ (Enhanced.get_starlink_constellation st now results).1.data_source
          = "enhanced_fallback"
      ∧ (Enhanced.get_starlink_constellation st now results).1.positions ≠ [] := by
  intro st now results hmiss hall
  have h1 : Enhanced.get_starlink_constellation st now results
      = (Enhanced._get_fallback_data now, st, results.length) := by
    rw [get_starlink_constellation_miss st now results hmiss]
    unfold Enhanced.resolveProviders
    rw [tryProviders_all_fail results hall]
  refine ⟨h1, ?_, ?_⟩
  · rw [h1]
    rfl
  · rw [h1]
    simp only [Enhanced._get_fallback_data]
    intro hc
    have := congrArg List.length hc
    simp at this

/-- C2 witness: concrete all-fail run (empty cache, one raising
provider). -/
theorem c2_all_sources_fail_fallback_witness :
    Enhanced.get_starlink_constellation ⟨none, none⟩ 0 [Enhanced.ProviderResult.raised]
      = (Enhanced._get_fallback_data 0, ⟨none, none⟩, 1) :=
  (c2_all_sources_fail_fallback ⟨none, none⟩ 0 [Enhanced.ProviderResult.raised] rfl
    (by intro r hr; rw [List.mem_singleton] at hr; subst hr; rfl)).1

/-- C2 counterexample: with the cache empty and all four providers
failing, the returned snapshot's `data_source` is `"enhanced_fallback"`,
not the `"fallback"` stated by the claim (its positions list does have
12 entries). -/
theorem c2_counterexample :
    ((Enhanced.get_starlink_constellation ⟨none, none⟩ 0
        [Enhanced.ProviderResult.raised, Enhanced.ProviderResult.raised,
         Enhanced.ProviderResult.raised, Enhanced.ProviderResult.raised]).1.data_source
      = "enhanced_fallback")
    ∧ "enhanced_fallback" ≠ "fallback"
    ∧ ((Enhanced.get_starlink_constellation ⟨none, none⟩ 0
        [Enhanced.ProviderResult.raised, Enhanced.ProviderResult.raised,
         Enhanced.ProviderResult.raised, Enhanced.ProviderResult.raised]).1.positions.length
      = 12) := by
  refine ⟨rfl, by decide, ?_⟩
  rfl

/-- C1 (amended): on a cache miss the four providers are tried in the
fixed priority order; if the first `fails.length` providers each fail
and the next returns a snapshot `d` with at least one position, exactly
`fails.length + 1` providers are invoked, `d` is cached and returned
unchanged, and any call within the 300-second TTL invokes zero providers
and returns the cached snapshot.  The `data_source` carried by the
returned snapshot is whatever the successful provider put there: on each
provider's live path it identifies the provider
(`satellitemap_enhanced`, `aviation_edge_premium`, `spacetrack_sgp4`,
`celestrak_tle`), but a provider that internally degrades to its sample
data succeeds with the tag `sample_data`, which identifies no
provider. -/
theorem c1_resolver_priority :
    ∀ (st : Enhanced.EnhancedState) (now : ℚ)
      (fails rest : List Enhanced.ProviderResult) (d : Snapshot),
      Enhanced._is_cache_valid st now = false →
      (∀ r ∈ fails, Enhanced.providerFails r = true) →
      d.positions ≠ [] →
      (Enhanced.get_starlink_constellation st now
          (fails ++ Enhanced.ProviderResult.value (some d) :: rest)
        = (d, ⟨some d, some now⟩, fails.length + 1))
      ∧ (∀ (now2 : ℚ) (results2 : List Enhanced.ProviderResult),
          now2 - now < 300 →
          Enhanced.get_starlink_constellation ⟨some d, some now⟩ now2 results2
            = (d, ⟨some d, some now⟩, 0))
      ∧ (∀ (key? : Option String) (resp? : Option (List Enhanced.SatInfo))
            (rand : ℕ → ℚ × ℚ × ℚ) (t : ℚ) (s : Snapshot),
          Enhanced._get_satellitemap_data key? resp? rand t = some s →
          s.data_source = "satellitemap_enhanced")
      ∧ (∀ (key? : Option String) (resp? : Option (List Enhanced.AvSat))
            (t : ℚ) (s : Snapshot),
          Enhanced._get_aviation_edge_data key? resp? t = some s →
          s.data_source = "aviation_edge_premium")
      ∧ (∀ (auth : Bool) (cnt : ℕ) (pos : List Position) (t : ℚ) (s : Snapshot),
          Enhanced._get_spacetrack_data auth true cnt pos t = some s →
          s.data_source = "spacetrack_sgp4")
      ∧ (∀ (k : MathKernel) (lines : List (List Char)) (t : ℚ) (s : Snapshot),
          Enhanced._get_celestrak_data k (some lines) t = some s →
          Satellites.parse_tle_lines lines t ≠ [] →
          s.data_source = "celestrak_tle") := by
  intro st now fails rest d hmiss hfails hd
  refine ⟨?_, ?_, ?_, ?_, ?_, ?_⟩
  · rw [get_starlink_constellation_miss _ _ _ hmiss]
    unfold Enhanced.resolveProviders
    rw [tryProviders_first_success fails rest d hfails hd]
    rfl
  · intro now2 results2 h2
    unfold Enhanced.get_starlink_constellation
    have hvalid : Enhanced._is_cache_valid ⟨some d, some now⟩ now2 = true := by
      simp only [Enhanced._is_cache_valid]
      exact decide_eq_true h2
    simp [hvalid]
  · intro key? resp? rand t s hs
    cases key? with
    | none => exact absurd hs (by simp [Enhanced._get_satellitemap_data])
    | some key =>
      cases resp? with
      | none => exact absurd hs (by simp [Enhanced._get_satellitemap_data])
      | some info =>
        by_cases hi : info.isEmpty
        · exact absurd hs (by simp [Enhanced._get_satellitemap_data, hi])
        · simp only [Enhanced._get_satellitemap_data, hi] at hs
          simp only [Bool.false_eq_true, if_false, Option.some.injEq] at hs
          rw [← hs]
  · intro key? resp? t s hs
    cases key? with
    | none => exact absurd hs (by simp [Enhanced._get_aviation_edge_data])
    | some key =>
      cases resp? with
      | none => exact absurd hs (by simp [Enhanced._get_aviation_edge_data])
      | some data =>
        simp only [Enhanced._get_aviation_edge_data, Option.some.injEq] at hs
        rw [← hs]
        rfl
  · intro auth cnt pos t s hs
    cases auth with
    | false => exact absurd hs (by simp [Enhanced._get_spacetrack_data])
    | true =>
      simp only [Enhanced._get_spacetrack_data, Bool.not_true, Bool.false_eq_true,
        if_false, Option.some.injEq] at hs
      rw [← hs]
      rfl
  · intro k lines t s hs hne
    simp only [Enhanced._get_celestrak_data, Option.some.injEq] at hs
    have hlen : (Satellites.parse_tle_lines lines t).length ≠ 0 := by
      simpa [List.length_eq_zero] using hne
    rw [← hs]
    unfold Satellites.get_starlink_constellation
    have hupd : Satellites._should_update_tle Satellites.freshCollector t = true := rfl
    rw [hupd]
    simp only [if_true]
    unfold Satellites._fetch_starlink_tle_data
    simp only [hlen, if_neg hlen]
    have hne2 : (Satellites.parse_tle_lines lines t).isEmpty = false := by
      simp [List.isEmpty_iff, hne]
    simp [hne2]
    rfl

/-- A concrete snapshot with one position, used to instantiate resolver
theorems. -/
def oneSatSnapshot : Snapshot :=
  { timestamp := 0
    satellite_count := 1
    positions_calculated := 1
    positions := [⟨"STARLINK-W", 1, 0, 0, 550, 7⟩]
    data_source := "satellitemap_enhanced"
    tle_age_hours := 0 }

/-- C1 witness: empty cache, first provider returns `None`, second
succeeds — two providers invoked, the snapshot cached and returned. -/
theorem c1_resolver_priority_witness :
    Enhanced.get_starlink_constellation ⟨none, none⟩ 0
        [Enhanced.ProviderResult.value none,
         Enhanced.ProviderResult.value (some oneSatSnapshot)]
      = (oneSatSnapshot, ⟨some oneSatSnapshot, some 0⟩, 2) :=
  (c1_resolver_priority ⟨none, none⟩ 0 [Enhanced.ProviderResult.value none] []
    oneSatSnapshot rfl
    (by intro r hr; rw [List.mem_singleton] at hr; subst hr; rfl)
    (List.cons_ne_nil _ _)).1

/-- A kernel whose entries are irrelevant to the evaluated code path
(the C1 counterexample never reaches a propagation computation). -/
def junkKernel : MathKernel :=
  ⟨fun _ => 0, fun _ => 0, fun _ => 0, fun _ _ => 0, fun _ => 0, fun _ => 0, 3⟩

/-- C1 counterexample: with no SatelliteMap session key, no Aviation
Edge key, failing Space-Track authentication and an unreachable
CelesTrak endpoint — a fully realistic "no credentials, network down"
deployment — the first three providers fail and the fourth succeeds
with 10 positions, but the returned snapshot's `data_source` is
`"sample_data"`, which identifies none of the four providers,
contradicting the claim's "its data_source field identifies provider
K+1" for K = 3. -/
theorem c1_counterexample :
    ((Enhanced.get_starlink_constellation_full junkKernel ⟨none, none⟩
        none none (fun _ => (0, 0, 0)) none none false false 0 [] none 0).1.data_source
      = "sample_data")
    ∧ ((Enhanced.get_starlink_constellation_full junkKernel ⟨none, none⟩
        none none (fun _ => (0, 0, 0)) none none false false 0 [] none 0).2.2 = 4)
    ∧ Enhanced.providerFails (Enhanced.ProviderResult.value
        (Enhanced._get_satellitemap_data none none (fun _ => (0, 0, 0)) 0)) = true
    ∧ Enhanced.providerFails (Enhanced.ProviderResult.value
        (Enhanced._get_aviation_edge_data none none 0)) = true
    ∧ Enhanced.providerFails (Enhanced.ProviderResult.value
        (Enhanced._get_spacetrack_data false false 0 [] 0)) = true
    ∧ ((Enhanced._get_celestrak_data junkKernel none 0).map
        (fun s => s.positions.length) = some 10)
    ∧ "sample_data" ≠ "satellitemap_enhanced"
    ∧ "sample_data" ≠ "aviation_edge_premium"
    ∧ "sample_data" ≠ "spacetrack_sgp4"
    ∧ "sample_data" ≠ "celestrak_tle" := by
  refine ⟨rfl, rfl, rfl, rfl, rfl, rfl, ?_, ?_, ?_, ?_⟩ <;> decide

theorem length_filterMap_countP {α β : Type} (f : α → Option β) :
    ∀ l : List α, (l.filterMap f).length = l.countP (fun a => (f a).isSome)
  | [] => rfl
  | x :: xs => by
    cases hx : f x with
    | none =>
      simp [List.filterMap_cons, hx, List.countP_cons,
        length_filterMap_countP f xs]
    | some b =>
      simp [List.filterMap_cons, hx, List.countP_cons,
        length_filterMap_countP f xs]

/-- C4 (amended): a name-plus-two-data-line triplet is accepted iff both
(stripped) data lines are exactly 69 characters, begin with `'1'` and
`'2'` respectively, and the catalog-number field `line1[2:7]` parses as
an integer.  The epoch field need not parse: `_parse_tle_epoch` catches
its own failures (claim C10), so a malformed epoch does not reject the
record.  Malformed triplets are skipped without aborting the ingestion,
the number of records produced equals the number of accepted triplets,
and a successful fetch stores exactly the accepted records. -/
theorem c4_tle_ingestion_acceptance :
    ∀ (now : ℚ) (n l1 l2 : List Char) (lines : List (List Char))
      (self : Satellites.SatelliteCollector),
      ((Satellites.parseTriple now (n, l1, l2)).isSome = true ↔
        ((pstrip l1).length = 69 ∧ (pstrip l2).length = 69
          ∧ (pstrip l1).head? = some '1' ∧ (pstrip l2).head? = some '2'
          ∧ (pyInt? (pySlice (pstrip l1) 2 7)).isSome = true))
      ∧ ((Satellites.parse_tle_lines lines now).length
          = (chunks3 lines).countP (fun t => (Satellites.parseTriple now t).isSome))
      ∧ ((Satellites._fetch_starlink_tle_data self (some lines) now).2.starlink_satellites
          = if (Satellites.parse_tle_lines lines now).length = 0
            then self.starlink_satellites
            else Satellites.parse_tle_lines lines now) := by
  intro now n l1 l2 lines self
  refine ⟨?_, length_filterMap_countP _ (chunks3 lines), ?_⟩
  · unfold Satellites.parseTriple
    by_cases hcond : (pstrip l1).length = 69 ∧ (pstrip l2).length = 69
        ∧ (pstrip l1).head? = some '1' ∧ (pstrip l2).head? = some '2'
    · cases hint : pyInt? (pySlice (pstrip l1) 2 7) with
      | none => simp [hcond, hint]
      | some v => simp [hcond, hint]
    · simp [hcond]
      intro h1 h2 h3 h4
      exact absurd ⟨h1, h2, h3, h4⟩ hcond
  · unfold Satellites._fetch_starlink_tle_data
    by_cases hz : (Satellites.parse_tle_lines lines now).length = 0
    · simp [hz]
    · simp [hz]

/-- Name and data lines of a triplet whose epoch field is 14 junk
characters but whose line lengths, line identifiers and catalog number
are all valid. -/
def c4name : List Char := "EPOCH JUNK SAT".toList

def c4line1 : List Char :=
  "1 44713U 19074A   XXXXXXXXXXXXXX -.00002182  00000-0 -11606-4 0  2927".toList

def c4line2 : List Char :=
  "2 44713  53.0536 157.6204 0001272  84.7292 275.3811 15.05113751 12345".toList

/-- C4 counterexample: the triplet `c4name/c4line1/c4line2` has an epoch
field (`line1[18:32] = "XXXXXXXXXXXXXX"`) that does not parse as a
number, yet ingestion accepts it (one record is stored) — refuting the
claim's "accepted if and only if ... catalog-number and epoch fields
parse as numbers".  The stored record's epoch is the acquisition time
(`now = 0`). -/
theorem c4_counterexample :
    ((Satellites.parse_tle_lines [c4name, c4line1, c4line2] 0).length = 1)
    ∧ (pyInt? ((pySlice (pstrip c4line1) 18 32).take 2) = none)
    ∧ ((Satellites.parse_tle_lines [c4name, c4line1, c4line2] 0).map
        (fun s => s.epoch) = [0]) := by
  refine ⟨?_, by decide, ?_⟩
  · decide
  · rfl

/-- C10: when either numeric field of the epoch string fails to parse
(`int(epoch_str[:2])` or `float(epoch_str[2:])` raises), or the parsed
day offset falls outside the representable `datetime` range,
`_parse_tle_epoch` returns the current UTC time instead of failing; and
ingestion accepts such a record anyway, assigning it exactly the value
`_parse_tle_epoch` produced — so a record with a malformed epoch field
is stored with epoch equal to acquisition time, indistinguishable from
fresh data. -/
theorem c10_epoch_parse_failure_returns_now :
    ∀ (s : List Char) (now : ℚ),
      ((pyInt? (s.take 2) = none ∨ pyFloat? (s.drop 2) = none) →
        Satellites.parse_tle_epoch s now = now)
      ∧ (∀ (n l1 l2 : List Char) (sat : TLESat),
          Satellites.parseTriple now (n, l1, l2) = some sat →
          sat.epoch = Satellites.parse_tle_epoch (pySlice (pstrip l1) 18 32) now) := by
  intro s now
  constructor
  · intro h
    unfold Satellites.parse_tle_epoch
    rcases h with h | h
    · rw [h]
    · rw [h]
      cases pyInt? (s.take 2) <;> rfl
  · intro n l1 l2 sat hs
    unfold Satellites.parseTriple at hs
    by_cases hcond : (pstrip l1).length = 69 ∧ (pstrip l2).length = 69
        ∧ (pstrip l1).head? = some '1' ∧ (pstrip l2).head? = some '2'
    · simp only [hcond, and_self, if_true] at hs
      cases hint : pyInt? (pySlice (pstrip l1) 2 7) with
      | none => rw [hint] at hs; exact absurd hs (by simp)
      | some v =>
        rw [hint] at hs
        simp only [Option.some.injEq] at hs
        rw [← hs]
    · simp only [if_neg hcond] at hs
      exact absurd hs (by simp)

/-- C10 witness: a 14-character junk epoch field parses to the supplied
acquisition time, and the accepted record of the `c4line1` triplet
carries exactly that epoch. -/
theorem c10_epoch_parse_failure_returns_now_witness :
    Satellites.parse_tle_epoch ("XXXXXXXXXXXXXX".toList) 42 = 42
    ∧ ((Satellites.parseTriple 42 (c4name, c4line1, c4line2)).map
        (fun s => s.epoch) = some 42) := by
  constructor
  · exact (c10_epoch_parse_failure_returns_now ("XXXXXXXXXXXXXX".toList) 42).1
      (Or.inl (by decide))
  · cases hp : Satellites.parseTriple 42 (c4name, c4line1, c4line2) with
    | none =>
      have hsome : (Satellites.parseTriple 42 (c4name, c4line1, c4line2)).isSome = true := by
        decide
      rw [hp] at hsome
      exact absurd hsome (by simp)
    | some sat =>
      have h2 := (c10_epoch_parse_failure_returns_now
        (pySlice (pstrip c4line1) 18 32) 42).2 c4name c4line1 c4line2 sat hp
      have h3 : Satellites.parse_tle_epoch (pySlice (pstrip c4line1) 18 32) 42 = 42 :=
        (c10_epoch_parse_failure_returns_now (pySlice (pstrip c4line1) 18 32) 42).1
          (Or.inl (by decide))
      simp [h2, h3]

theorem elevation_bound_visible_unsorted (k : MathKernel)
    (self : Satellites.SatelliteCollector) (lat lon emin now : ℚ)
    (v : Satellites.VisibleSat)
    (h : v ∈ Satellites.visible_satellites_unsorted k self lat lon emin now) :
    emin ≤ v.elevation_degrees := by
  unfold Satellites.visible_satellites_unsorted at h
  rw [List.mem_filterMap] at h
  obtain ⟨sat, _, hsat⟩ := h
  cases hpos : Satellites._calculate_satellite_position k sat now with
  | none => rw [hpos] at hsat; exact absurd hsat (by simp)
  | some p =>
    rw [hpos] at hsat
    dsimp only at hsat
    by_cases hcond : emin ≤ Satellites._calculate_elevation_angle k lat lon 0 p.lat p.lng p.alt
    · rw [if_pos hcond] at hsat
      cases hsat
      exact hcond
    · rw [if_neg hcond] at hsat
      exact absurd hsat (by simp)

theorem elevation_bound_enh_visible_unsorted (k : MathKernel)
    (constellation : Snapshot) (lat lon emin : ℚ)
    (v : Enhanced.EnhVisibleSat)
    (h : v ∈ Enhanced.get_visible_satellites_unsorted k constellation lat lon emin) :
    emin ≤ v.elevation := by
  unfold Enhanced.get_visible_satellites_unsorted at h
  rw [List.mem_filterMap] at h
  obtain ⟨sat, _, hsat⟩ := h
  dsimp only at hsat
  set d := 2 * k.atan2
      (k.sqrt (k.sin (radians k (sat.lat - lat) / 2) * k.sin (radians k (sat.lat - lat) / 2) +
        k.cos (radians k lat) * k.cos (radians k sat.lat) *
          k.sin (radians k (sat.lng - lon) / 2) * k.sin (radians k (sat.lng - lon) / 2)))
      (k.sqrt (1 - (k.sin (radians k (sat.lat - lat) / 2) * k.sin (radians k (sat.lat - lat) / 2) +
        k.cos (radians k lat) * k.cos (radians k sat.lat) *
          k.sin (radians k (sat.lng - lon) / 2) * k.sin (radians k (sat.lng - lon) / 2)))) * 6371
    with hd
  by_cases h1 : d < 2000
  · rw [if_pos h1] at hsat
    by_cases h2 : emin ≤ max 0 (90 - d / 100)
    · rw [if_pos h2] at hsat
      cases hsat
      exact h2
    · rw [if_neg h2] at hsat
      exact absurd hsat (by simp)
  · rw [if_neg h1] at hsat
    exact absurd hsat (by simp)

/-- C3: both visibility queries return only satellites whose computed
elevation is at least the threshold, sorted in descending order of
elevation, with equal-elevation entries kept in their original input
order (the sort is the stable descending sort of Python's
`list.sort`/`sorted` with `reverse=True`; stability is stated as
filter-preservation on every elevation class). -/
theorem c3_visibility_filter_and_stable_sort :
    ∀ (k : MathKernel) (self : Satellites.SatelliteCollector)
      (constellation : Snapshot) (lat lon emin now q : ℚ),
      ((Satellites.get_satellites_over_location k self lat lon emin now).all
          (fun v => decide (emin ≤ v.elevation_degrees)) = true)
      ∧ (Satellites.get_satellites_over_location k self lat lon emin now).Pairwise
          (fun a b => b.elevation_degrees ≤ a.elevation_degrees)
      ∧ ((Satellites.get_satellites_over_location k self lat lon emin now).filter
            (fun v => decide (v.elevation_degrees = q))
          = (Satellites.visible_satellites_unsorted k self lat lon emin now).filter
            (fun v => decide (v.elevation_degrees = q)))
      ∧ ((Enhanced.get_visible_satellites k constellation lat lon emin).all
          (fun v => decide (emin ≤ v.elevation)) = true)
      ∧ (Enhanced.get_visible_satellites k constellation lat lon emin).Pairwise
          (fun a b => b.elevation ≤ a.elevation)
      ∧ ((Enhanced.get_visible_satellites k constellation lat lon emin).filter
            (fun v => decide (v.elevation = q))
          = (Enhanced.get_visible_satellites_unsorted k constellation lat lon emin).filter
            (fun v => decide (v.elevation = q))) := by
  intro k self constellation lat lon emin now q
  refine ⟨?_, ?_, ?_, ?_, ?_, ?_⟩
  · rw [List.all_eq_true]
    intro v hv
    rw [Satellites.get_satellites_over_location,
      mem_sortStableDesc] at hv
    exact decide_eq_true
      (elevation_bound_visible_unsorted k self lat lon emin now v hv)
  · exact sortStableDesc_pairwise _ _
  · exact sortStableDesc_filter _ q _
  · rw [List.all_eq_true]
    intro v hv
    rw [Enhanced.get_visible_satellites, mem_sortStableDesc] at hv
    exact decide_eq_true
      (elevation_bound_enh_visible_unsorted k constellation lat lon emin v hv)
  · exact sortStableDesc_pairwise _ _
  · exact sortStableDesc_filter _ q _

theorem digitsVal_nil : digitsVal [] = 0 := rfl

theorem pyFloatCore_int_eval (s ip : List Char) (q : ℚ)
    (hip : s.takeWhile isDigitChar = ip)
    (hdrop : s.dropWhile isDigitChar = [])
    (hne : ip.isEmpty = false)
    (hq : (digitsVal ip : ℚ) = q) :
    pyFloatCore? s = some q := by
  simp only [pyFloatCore?, hip, hdrop, hne, List.head?_nil, List.tail_nil,
    List.isEmpty_nil, Bool.and_true, Bool.and_false, reduceCtorEq, if_false,
    if_true, Bool.false_eq_true, digitsVal_nil, List.length_nil, pow_zero,
    Nat.cast_zero, zero_div, add_zero, if_neg, ite_self]
  norm_num [hq]

theorem pyFloatCore_decimal_eval (s ip r : List Char) (q : ℚ)
    (hip : s.takeWhile isDigitChar = ip)
    (hdrop : s.dropWhile isDigitChar = '.' :: r)
    (hr : r.takeWhile isDigitChar = r)
    (hrd : r.dropWhile isDigitChar = [])
    (hne : (ip.isEmpty && r.isEmpty) = false)
    (hq : (digitsVal ip : ℚ) + (digitsVal r : ℚ) / 10 ^ r.length = q) :
    pyFloatCore? s = some q := by
  simp only [pyFloatCore?, hip, hdrop, List.head?_cons, List.tail_cons, hr, hrd, hne,
    List.isEmpty_nil, Option.some.injEq, if_true, if_false, Bool.false_eq_true]
  norm_num [hq]

theorem pyFloat_pos_eval (s t : List Char) (q : ℚ)
    (hstrip : pstrip s = t)
    (h1 : t.head? ≠ some '+') (h2 : t.head? ≠ some '-')
    (hcore : pyFloatCore? t = some q) :
    pyFloat? s = some q := by
  unfold pyFloat?
  rw [hstrip, if_neg h1, if_neg h2, hcore]

theorem pyFloat_neg_eval (s t : List Char) (q : ℚ)
    (hstrip : pstrip s = '-' :: t)
    (hcore : pyFloatCore? t = some q) :
    pyFloat? s = some (-q) := by
  unfold pyFloat?
  rw [hstrip]
  rw [if_neg (by simp), if_pos (by simp), List.tail_cons, hcore]
  rfl

/-- C5 (amended): every position the approximate propagator produces has
its longitude in the closed interval `[-180, 180]` (the normalisation
loops admit exactly `-180`, so the half-open `(-180, 180]` of the claim
is not guaranteed) and its latitude clamped into `[-90, 90]`; the SGP4
path's `_eci_to_geodetic` normalises its longitude into the same closed
interval (and applies no latitude clamp). -/
theorem c5_normalized_ranges :
    ∀ (k : MathKernel) (sat : TLESat) (t x y z : ℚ),
      ((Satellites._calculate_satellite_position k sat t).all
        (fun p => decide (-180 ≤ p.lng ∧ p.lng ≤ 180 ∧ -90 ≤ p.lat ∧ p.lat ≤ 90)) = true)
      ∧ (-180 ≤ (SpaceTrack._eci_to_geodetic k x y z).2.1
          ∧ (SpaceTrack._eci_to_geodetic k x y z).2.1 ≤ 180) := by
  intro k sat t x y z
  constructor
  · unfold Satellites._calculate_satellite_position
    cases Satellites.parse_line2_elements sat.line2 with
    | none => rfl
    | some el =>
      dsimp only
      split
      · rfl
      · split
        · rfl
        · simp only [Option.all]
          refine decide_eq_true ⟨normLonLo_ge _, normLonLo_le (normLonHi_le _), ?_, ?_⟩
          · exact le_max_left _ _
          · exact max_le (by norm_num) (min_le_left _ _)
  · unfold SpaceTrack._eci_to_geodetic
    dsimp only
    exact ⟨normLonLo_ge _, normLonLo_le (normLonHi_le _)⟩

/-- Second data line of a TLE whose right ascension of the ascending
node is exactly `-180` degrees, all other angles zero, eccentricity
zero and mean motion 15 revolutions/day. -/
def line2Cx5 : List Char :=
  "2 44713        0     -180 0000000        0        0          15     0".toList

/-- The stored record for `line2Cx5`, with epoch 0. -/
def satCx5 : TLESat := ⟨"LON-180", [], line2Cx5, 44713, 0⟩

/-- Kernel for the C5 counterexample run.  Every kernel value actually
consumed on this code path agrees with the true function:
`sin 0 = 0`, `cos 0 = 1`, `sqrt 1 = 1`, `asin 0 = 0`, and
`atan2 0 x = 0` for the non-negative `x` at which it is called; `cbrt`
is a positive stand-in that only enters the radius/altitude/velocity
fields, not the longitude; the longitude computation is independent of
the value of `pi` because `degrees (radians raan) = raan` for every
non-zero `pi`. -/
def kCx5 : MathKernel :=
  ⟨fun _ => 0, fun _ => 1, fun _ => 0, fun _ _ => 0, fun _ => 1, fun _ => 7000, 3⟩

theorem line2Cx5_incl : pyFloat? (pySlice line2Cx5 8 16) = some 0 := by
  refine pyFloat_pos_eval _ ['0'] 0 (by decide) (by decide) (by decide) ?_
  refine pyFloatCore_int_eval _ ['0'] 0 (by decide) (by decide) (by decide) ?_
  rw [show digitsVal ['0'] = 0 from by decide]
  norm_num

theorem line2Cx5_raan : pyFloat? (pySlice line2Cx5 17 25) = some (-180) := by
  refine pyFloat_neg_eval _ ['1', '8', '0'] 180 (by decide) ?_
  refine pyFloatCore_int_eval _ ['1', '8', '0'] 180 (by decide) (by decide) (by decide) ?_
  rw [show digitsVal ['1', '8', '0'] = 180 from by decide]
  norm_num

theorem line2Cx5_ecc : pyFloat? ('0' :: '.' :: pySlice line2Cx5 26 33) = some 0 := by
  refine pyFloat_pos_eval _ ('0' :: '.' :: pySlice line2Cx5 26 33) 0 (by decide)
    (by decide) (by decide) ?_
  refine pyFloatCore_decimal_eval _ ['0'] ['0', '0', '0', '0', '0', '0', '0'] 0
    (by decide) (by decide) (by decide) (by decide) (by decide) ?_
  rw [show digitsVal ['0'] = 0 from by decide,
    show digitsVal ['0', '0', '0', '0', '0', '0', '0'] = 0 from by decide]
  norm_num

theorem line2Cx5_argp : pyFloat? (pySlice line2Cx5 34 42) = some 0 := by
  refine pyFloat_pos_eval _ ['0'] 0 (by decide) (by decide) (by decide) ?_
  refine pyFloatCore_int_eval _ ['0'] 0 (by decide) (by decide) (by decide) ?_
  rw [show digitsVal ['0'] = 0 from by decide]
  norm_num

theorem line2Cx5_ma : pyFloat? (pySlice line2Cx5 43 51) = some 0 := by
  refine pyFloat_pos_eval _ ['0'] 0 (by decide) (by decide) (by decide) ?_
  refine pyFloatCore_int_eval _ ['0'] 0 (by decide) (by decide) (by decide) ?_
  rw [show digitsVal ['0'] = 0 from by decide]
  norm_num

theorem line2Cx5_mm : pyFloat? (pySlice line2Cx5 52 63) = some 15 := by
  refine pyFloat_pos_eval _ ['1', '5'] 15 (by decide) (by decide) (by decide) ?_
  refine pyFloatCore_int_eval _ ['1', '5'] 15 (by decide) (by decide) (by decide) ?_
  rw [show digitsVal ['1', '5'] = 15 from by decide]
  norm_num

theorem line2Cx5_elements :
    Satellites.parse_line2_elements line2Cx5 = some ⟨0, -180, 0, 0, 0, 15⟩ := by
  unfold Satellites.parse_line2_elements
  rw [line2Cx5_incl, line2Cx5_raan, line2Cx5_ecc, line2Cx5_argp, line2Cx5_ma,
    line2Cx5_mm]

/-- C5 counterexample: propagating `satCx5` (RAAN exactly `-180`, true
anomaly 0) produces a position whose longitude is exactly `-180`, which
lies outside the half-open interval `(-180, 180]` asserted by the
claim — the `while` normalisation loops leave `-180` untouched. -/
theorem c5_counterexample :
    ((Satellites._calculate_satellite_position kCx5 satCx5 0).map (fun p => p.lng)
      = some (-180))
    ∧ ¬((-180 : ℚ) < -180) := by
  constructor
  · unfold Satellites._calculate_satellite_position
    rw [show satCx5.line2 = line2Cx5 from rfl, line2Cx5_elements]
    dsimp only
    rw [if_neg (by norm_num [Satellites.mean_motion_rad, kCx5])]
    rw [if_neg (show ¬(Satellites.semi_major_axis kCx5 15 *
        (1 - 0 * kCx5.cos (Satellites.eccentric_anomaly kCx5 0
          (radians kCx5 (Satellites.current_mean_anomaly 0 15 ((0 - satCx5.epoch) / 86400))))) ≤ 0)
      from by norm_num [Satellites.semi_major_axis, kCx5])]
    have hlon0 : ∀ yo xo : ℚ,
        degreesOf kCx5 (kCx5.atan2 yo xo + radians kCx5 (-180)) = -180 := by
      intro yo xo
      norm_num [degreesOf, radians, kCx5]
    simp only [Option.map_some']
    rw [hlon0, normLonHi_of_le (by norm_num), normLonLo_of_ge (by norm_num)]
  · norm_num

/-- C6: the approximate propagator advances the mean anomaly by
`mean_motion * 360 * elapsed_days` reduced modulo 360 (the result lies
in `[0, 360)` and differs from the unreduced value by an integer
multiple of 360); derives the semi-major axis from the mean motion via
Kepler's third law (whenever the cube-root kernel is exact at
`mu / n^2`, the axis satisfies `a^3 * n^2 = mu`); and solves Kepler's
equation with exactly the single correction `E = M + e * sin M`, not
iterated further. -/
theorem c6_approximate_propagation_formulas :
    ∀ (k : MathKernel) (mean_anomaly mean_motion time_diff e M : ℚ),
      (0 ≤ Satellites.current_mean_anomaly mean_anomaly mean_motion time_diff
        ∧ Satellites.current_mean_anomaly mean_anomaly mean_motion time_diff < 360
        ∧ ∃ z : ℤ, Satellites.current_mean_anomaly mean_anomaly mean_motion time_diff
            = mean_anomaly + mean_motion * 360 * time_diff - 360 * z)
      ∧ (Satellites.mean_motion_rad k mean_motion ≠ 0 →
          k.cbrt (Satellites.mu / Satellites.mean_motion_rad k mean_motion ^ 2) ^ 3
            = Satellites.mu / Satellites.mean_motion_rad k mean_motion ^ 2 →
          Satellites.semi_major_axis k mean_motion ^ 3
              * Satellites.mean_motion_rad k mean_motion ^ 2 = Satellites.mu)
      ∧ Satellites.eccentric_anomaly k e M = M + e * k.sin M := by
  intro k ma mm td e M
  refine ⟨⟨qmod_nonneg _ 360 (by norm_num), qmod_lt _ 360 (by norm_num), ?_⟩, ?_, rfl⟩
  · exact qmod_sub_int (ma + mm * 360 * td) 360
  · intro hn hc
    unfold Satellites.semi_major_axis
    rw [hc]
    exact div_mul_cancel₀ _ (pow_ne_zero 2 hn)

/-- Kernel whose cube root is exact at the value the C6 witness feeds
it (`mu / n^2 = mu^3` for `n = 1/mu`, whose true cube root is the
rational `mu`). -/
def keplerKernel : MathKernel :=
  ⟨fun _ => 0, fun _ => 0, fun _ => 0, fun _ _ => 0, fun _ => 0,
   fun _ => Satellites.mu, 1⟩

/-- C6 witness: with mean motion `216000000 / 1993002209` rev/day
(so `n = 1/mu` rad/s) the computed semi-major axis satisfies Kepler's
third law exactly. -/
theorem c6_approximate_propagation_formulas_witness :
    Satellites.semi_major_axis keplerKernel (216000000 / 1993002209) ^ 3
        * Satellites.mean_motion_rad keplerKernel (216000000 / 1993002209) ^ 2
      = Satellites.mu := by
  refine (c6_approximate_propagation_formulas keplerKernel 0
      (216000000 / 1993002209) 0 0 0).2.1 ?_ ?_
  · norm_num [Satellites.mean_motion_rad, keplerKernel]
  · norm_num [Satellites.mean_motion_rad, keplerKernel, Satellites.mu]

theorem qmod_360_360 : qmod 360 360 = 0 := by
  unfold qmod
  rw [show (360 : ℚ) / 360 = 1 from by norm_num, Int.floor_one]
  norm_num

/-- C7 (amended): the elevation and azimuth computations are total for
every input (each Python exception site is caught and `0.0` returned):
at coincident observer/satellite positions both return 0 degrees
(elevation through the caught zero-range division, azimuth through
`atan2(0, 0) = 0`); at antipodal positions the azimuth returns 0
degrees; the elevation at antipodal positions, however, is the computed
angle (about -90 degrees), not 0 — see the counterexample.  Hypotheses
state the true-function facts about the kernel that each case uses. -/
theorem c7_degenerate_angles :
    ∀ (k : MathKernel) (olat olon oalt lat lon : ℚ),
      (k.sqrt 0 = 0 →
        Satellites._calculate_elevation_angle k olat olon oalt olat olon oalt = 0)
      ∧ (k.sin 0 = 0 → k.cos 0 = 1 → k.atan2 0 0 = 0 →
          Satellites._calculate_azimuth k olat olon olat olon = 0)
      ∧ (k.sin k.pi = 0 → k.cos k.pi = -1 →
          k.sin (radians k (-lat)) = -(k.sin (radians k lat)) →
          k.cos (radians k (-lat)) = k.cos (radians k lat) →
          k.atan2 0 0 = 0 →
          Satellites._calculate_azimuth k lat lon (-lat) (lon + 180) = 0) := by
  intro k olat olon oalt lat lon
  refine ⟨?_, ?_, ?_⟩
  · intro hsqrt
    unfold Satellites._calculate_elevation_angle
    dsimp only
    by_cases hO : (6371 : ℚ) + oalt = 0
    · rw [if_pos hO]
    · rw [if_neg hO]
      simp only [sub_self, mul_zero, zero_mul, add_zero, zero_add]
      rw [hsqrt, if_pos rfl]
  · intro hsin0 hcos0 hatan
    unfold Satellites._calculate_azimuth
    dsimp only
    rw [sub_self, hsin0, hcos0, zero_mul, mul_one]
    rw [show k.cos (radians k olat) * k.sin (radians k olat)
        - k.sin (radians k olat) * k.cos (radians k olat) = 0 from by ring]
    rw [hatan]
    rw [show degreesOf k 0 = 0 from by simp [degreesOf]]
    rw [show (0 : ℚ) + 360 = 360 from by norm_num]
    exact qmod_360_360
  · intro hsinpi hcospi hsinneg hcosneg hatan
    unfold Satellites._calculate_azimuth
    dsimp only
    rw [show radians k (lon + 180) - radians k lon = k.pi from by unfold radians; ring]
    rw [hsinpi, zero_mul, hsinneg, hcosneg, hcospi]
    rw [show k.cos (radians k lat) * -k.sin (radians k lat)
        - k.sin (radians k lat) * k.cos (radians k lat) * -1 = 0 from by ring]
    rw [hatan]
    rw [show degreesOf k 0 = 0 from by simp [degreesOf]]
    rw [show (0 : ℚ) + 360 = 360 from by norm_num]
    exact qmod_360_360

/-- Kernel agreeing with the true trigonometric functions at every
point the C7 witness evaluates them (`sin 0 = sin pi = 0`,
`cos 0 = 1`, `cos pi = -1`, `sqrt 0 = 0`, `atan2 0 0 = 0`). -/
def trigKernel : MathKernel :=
  ⟨fun _ => 0, fun x => if x = 3 then -1 else 1, fun _ => 0, fun _ _ => 0,
   fun _ => 0, fun _ => 0, 3⟩

/-- C7 witness: a coincident observer/satellite pair gives elevation 0
and azimuth 0, and an equatorial antipodal pair gives azimuth 0. -/
theorem c7_degenerate_angles_witness :
    Satellites._calculate_elevation_angle trigKernel 10 20 0 10 20 0 = 0
    ∧ Satellites._calculate_azimuth trigKernel 10 20 10 20 = 0
    ∧ Satellites._calculate_azimuth trigKernel 0 20 (-0) (20 + 180) = 0 := by
  have h := c7_degenerate_angles trigKernel 10 20 0 0 20
  exact ⟨h.1 rfl,
    h.2.1 rfl (by norm_num [trigKernel]) rfl,
    h.2.2 rfl (by norm_num [trigKernel]) (by norm_num [trigKernel, radians])
      (by norm_num [trigKernel, radians]) rfl⟩

/-- Kernel agreeing with the true functions at every point the C7
counterexample evaluates them: `sin 0 = sin pi = 0`, `cos 0 = 1`,
`cos pi = -1`, `sqrt (12742^2) = 12742`, `asin (-1) = -pi/2` (the
model `pi` is 3, which cancels out of `degrees (asin ...)`). -/
def kAnt : MathKernel :=
  ⟨fun _ => 0, fun x => if x = 3 then -1 else 1,
   fun x => if x = -1 then -(3 / 2) else 0, fun _ _ => 0,
   fun x => if x = 162358564 then 12742 else 0, fun _ => 0, 3⟩

/-- C7 counterexample: for the antipodal pair observer `(0, 0, 0)` and
satellite `(0, 180, 0)` the elevation computation does not return 0 —
no exception occurs and the computed elevation is `-90` degrees, so the
claim's "in such degenerate cases each returns 0.0 degrees" fails for
the elevation at antipodal points. -/
theorem c7_counterexample :
    Satellites._calculate_elevation_angle kAnt 0 0 0 0 180 0 = -90
    ∧ ((-90 : ℚ) ≠ 0) := by
  constructor
  · unfold Satellites._calculate_elevation_angle
    norm_num [kAnt, radians, degreesOf, min_def, max_def]
  · norm_num
